import Mathlib

/-!
Shallow embedding of the two MCP example servers of this repository:
`workshops/jokes-python/jokes.py` and
`workshops/deepl-simple-python/deepl-simple.py`.

Outbound HTTP is modelled by an oracle `http : String → JsonValue` giving the
parsed JSON body returned for a GET of a URL; each tool also returns the list
of URLs it requested, so that "no network call is attempted" is the statement
that this list is empty.  The DeepL vendor SDK is modelled by an oracle over
the exact arguments of the call, together with the list of calls made.
Python exceptions (KeyError, IndexError, TypeError) and the framework-level
validation failure are an explicit error type, and fallible code returns
`Except`.
-/

namespace Spec2Proof

/-- A parsed JSON value, as produced by `response.json()` in Python.
Objects are string-keyed association lists (Python dicts from JSON have
unique keys, so first-match lookup is dict lookup). -/
inductive JsonValue where
  | str (s : String)
  | num (n : Int)
  | bool (b : Bool)
  | null
  | arr (xs : List JsonValue)
  | obj (fields : List (String × JsonValue))

/-- Errors a tool invocation can surface: the Python exceptions the adapter
code can raise (KeyError from a dict subscript, IndexError from a list
subscript, TypeError from subscripting a non-container) and the
framework-level `invalidArgument` raised by parameter validation. -/
inductive ToolError where
  | invalidArgument
  | keyError (key : String)
  | indexError
  | typeError
deriving DecidableEq

/-- Python `repr` of a JSON value (string-escape sequences inside nested
strings are not modelled; no theorem below depends on the rendering of a
non-string value). -/
def pyRepr : JsonValue → String
  | .str s => "\x27" ++ s ++ "\x27"
  | .num n => toString n
  | .bool b => if b then "True" else "False"
  | .null => "None"
  | .arr xs => "[" ++ String.intercalate ", " (xs.attach.map fun x => pyRepr x.1) ++ "]"
  | .obj fields =>
      "\x7b" ++
        String.intercalate ", "
          (fields.attach.map fun kv =>
            "\x27" ++ kv.1.1 ++ "\x27: " ++ pyRepr kv.1.2) ++
      "\x7d"
decreasing_by
  · have := List.sizeOf_lt_of_mem x.2
    simp only [JsonValue.arr.sizeOf_spec]
    omega
  · have h1 := List.sizeOf_lt_of_mem kv.2
    have h2 : sizeOf kv.1 = 1 + sizeOf kv.1.1 + sizeOf kv.1.2 := by
      obtain ⟨⟨k, v⟩, hm⟩ := kv
      simp
    simp only [JsonValue.obj.sizeOf_spec]
    omega

/-- Python `str` of a JSON value, as applied by an f-string interpolation. -/
def pyStr : JsonValue → String
  | .str s => s
  | v => pyRepr v

/-- Python dict subscript `j[key]`: KeyError when the key is absent,
TypeError when `j` is not a dict (string keys never index lists or strings). -/
def dictGet (j : JsonValue) (key : String) : Except ToolError JsonValue :=
  match j with
  | .obj fields =>
      match fields.lookup key with
      | some v => .ok v
      | none => .error (.keyError key)
  | _ => .error .typeError

/-- Python subscript `j[0]`: first element of a list (IndexError when empty),
first character of a string, KeyError on a dict without an integer key 0
(rendered here as the key "0"), TypeError otherwise. -/
def subscriptZero (j : JsonValue) : Except ToolError JsonValue :=
  match j with
  | .arr (x :: _) => .ok x
  | .arr [] => .error .indexError
  | .str s =>
      match s.data with
      | c :: _ => .ok (.str (String.mk [c]))
      | [] => .error .indexError
  | .obj _ => .error (.keyError "0")
  | _ => .error .typeError

/-! ## jokes.py -/

def API_BASE_URL : String := "https://official-joke-api.appspot.com"

/-- The `Literal` annotation on the source constant `JOKE_TYPES`. -/
def JOKE_TYPES : List String := ["general", "knock-knock", "programming", "dad"]

/-- `extract_joke(json)`: the f-string evaluates `json[\x27setup\x27]`, then
`json[\x27punchline\x27]`, and joins their `str` renderings with a newline. -/
def extract_joke (json : JsonValue) : Except ToolError String :=
  (dictGet json "setup").bind fun s =>
    (dictGet json "punchline").map fun p => pyStr s ++ "\n" ++ pyStr p

/-- `get_joke()`: GET the random-joke endpoint and apply `extract_joke`. -/
def get_joke (http : String → JsonValue) : Except ToolError String × List String :=
  let url := API_BASE_URL ++ "/random_joke"
  let json := http url
  (extract_joke json, [url])

/-- `get_joke_by_id(id)`: GET the per-id endpoint and apply `extract_joke`. -/
def get_joke_by_id (id : Int) (http : String → JsonValue) :
    Except ToolError String × List String :=
  let url := API_BASE_URL ++ "/jokes/" ++ toString id
  let json := http url
  (extract_joke json, [url])

/-- `get_joke_by_type(joke_type)`: GET the per-type random endpoint and apply
`extract_joke` to `json[0]`. -/
def get_joke_by_type (joke_type : String) (http : String → JsonValue) :
    Except ToolError String × List String :=
  let url := API_BASE_URL ++ "/jokes/" ++ joke_type ++ "/random"
  let json := http url
  ((subscriptZero json).bind extract_joke, [url])

/-- Modelled from the spec: the tool registry (FastMCP, external to this
repository) validates declared parameter constraints before the handler runs;
the bounds ge 1, le 451 are the `Field` annotation on `get_joke_by_id` in the
source.  An out-of-range argument fails with `invalidArgument` and the handler
never runs, so no request is made. -/
def invoke_get_joke_by_id (id : Int) (http : String → JsonValue) :
    Except ToolError String × List String :=
  if 1 ≤ id ∧ id ≤ 451 then get_joke_by_id id http
  else (.error .invalidArgument, [])

/-- Modelled from the spec: the tool registry validates the `Literal`
enumeration constraint of `get_joke_by_type` (the source constant
`JOKE_TYPES`) before the handler runs. -/
def invoke_get_joke_by_type (joke_type : String) (http : String → JsonValue) :
    Except ToolError String × List String :=
  if joke_type ∈ JOKE_TYPES then get_joke_by_type joke_type http
  else (.error .invalidArgument, [])

/-- Modelled from the spec: the error taxonomy of the spec classifies a
missing-field KeyError raised while extracting a joke from upstream JSON as a
`MalformedResponse` error. -/
def ToolError.isMalformedResponse : ToolError → Bool
  | .keyError _ => true
  | _ => false

/-! ## deepl-simple.py -/

/-- Failure of an outbound vendor SDK call, propagated unchanged. -/
inductive TransError where
  | upstreamError
deriving DecidableEq

/-- A vendor language descriptor (public attributes, as read by `vars`). -/
structure Language where
  code : String
  name : String
  supports_formality : Bool
deriving DecidableEq

/-- The vendor SDK client object; it stores the key it was constructed with,
which may be absent. -/
structure DeepLClient where
  auth_key : Option String
deriving DecidableEq

/-- The vendor's translation result object; the adapter keeps only `text`. -/
structure TextResult where
  text : String
  detected_source_lang : String
  billed_characters : Int
deriving DecidableEq

/-- The exact arguments of one vendor SDK translate call. -/
structure TranslateCall where
  text : String
  target_lang : String
  formality : Option String
deriving DecidableEq

/-- The `Literal` annotation on the source constant `FORMALITY_TYPES`. -/
def FORMALITY_TYPES : List String :=
  ["less", "more", "default", "prefer_less", "prefer_more"]

/-- `os.environ.get("DEEPL_API_KEY")`: `None` when absent, no failure. -/
def DEEPL_API_KEY (env : List (String × String)) : Option String :=
  env.lookup "DEEPL_API_KEY"

/-- Modelled from the spec: module-level startup reads the environment
variable and constructs the client; construction stores the (possibly absent)
key and does not itself fail — absence of the key is observed only when a
vendor call is made. -/
def startup (env : List (String × String)) : Except TransError DeepLClient :=
  .ok ⟨DEEPL_API_KEY env⟩

/-- `translate_dude()`: the constant string. -/
def translate_dude : String := "dude"

/-- Modelled from the spec: a vendor SDK language-listing call; fails as an
upstream (authentication) error at request time when the key is absent,
otherwise returns the vendor-supplied list. -/
def DeepLClient.sdk_get_languages (c : DeepLClient) (upstream : List Language) :
    Except TransError (List Language) :=
  match c.auth_key with
  | none => .error .upstreamError
  | some _ => .ok upstream

/-- Python `vars(lang)`: the public attributes of a language object as a
plain string-keyed mapping. -/
def vars (l : Language) : List (String × JsonValue) :=
  [("code", .str l.code), ("name", .str l.name),
   ("supports_formality", .bool l.supports_formality)]

/-- `get_source_languages()`: list the vendor source languages and convert
each to a plain mapping. -/
def get_source_languages (c : DeepLClient) (upstream : List Language) :
    Except TransError (List (List (String × JsonValue))) :=
  (c.sdk_get_languages upstream).map fun langs => langs.map vars

/-- `get_target_languages()`: list the vendor target languages and convert
each to a plain mapping. -/
def get_target_languages (c : DeepLClient) (upstream : List Language) :
    Except TransError (List (List (String × JsonValue))) :=
  (c.sdk_get_languages upstream).map fun langs => langs.map vars

/-- Modelled from the spec: the vendor SDK translate call.  It is made with
exactly the given arguments (the call is recorded); it fails as an upstream
error at request time when the key is absent, otherwise the vendor oracle
gives the result object for that call. -/
def DeepLClient.sdk_translate (c : DeepLClient) (vendor : TranslateCall → TextResult)
    (text : String) (target_lang : String) (formality : Option String) :
    Except TransError TextResult × List TranslateCall :=
  let call : TranslateCall := ⟨text, target_lang, formality⟩
  match c.auth_key with
  | none => (.error .upstreamError, [call])
  | some _ => (.ok (vendor call), [call])

/-- `translate_text(text, targetLang, formality=None)`: forward the arguments
to the vendor SDK and return only the `text` field of its result. -/
def translate_text (c : DeepLClient) (vendor : TranslateCall → TextResult)
    (text : String) (targetLang : String) (formality : Option String) :
    Except TransError String × List TranslateCall :=
  let r := c.sdk_translate vendor text targetLang formality
  (r.1.map TextResult.text, r.2)

/-! ## Helper lemmas -/

lemma extract_joke_missing_field (fields : List (String × JsonValue))
    (h : fields.lookup "setup" = none ∨ fields.lookup "punchline" = none) :
    ∃ key, extract_joke (.obj fields) = .error (.keyError key) := by
  rcases h with h | h
  · exact ⟨"setup", by simp [extract_joke, dictGet, h, Except.bind, Except.map]⟩
  · cases hs : fields.lookup "setup" with
    | none =>
        exact ⟨"setup", by simp [extract_joke, dictGet, hs, Except.bind, Except.map]⟩
    | some v =>
        exact ⟨"punchline",
          by simp [extract_joke, dictGet, hs, h, Except.bind, Except.map]⟩

lemma extract_joke_found (fields : List (String × JsonValue)) (s p : String)
    (hs : fields.lookup "setup" = some (.str s))
    (hp : fields.lookup "punchline" = some (.str p)) :
    extract_joke (.obj fields) = .ok (s ++ "\n" ++ p) := by
  simp [extract_joke, dictGet, hs, hp, Except.bind, Except.map, pyStr]

/-! ## Claim theorems -/

/-- C1: for every upstream joke JSON object missing the setup field or the
punchline field, each joke-fetching operation (get_joke, get_joke_by_id,
get_joke_by_type, the latter on a one-element array around the object) fails
with an error classified as MalformedResponse by the spec taxonomy, and never
returns a string. -/
theorem malformed_response_fails (fields : List (String × JsonValue))
    (h : fields.lookup "setup" = none ∨ fields.lookup "punchline" = none)
    (id : Int) (jt : String) :
    (∃ e, (get_joke fun _ => .obj fields).1 = .error e ∧
      e.isMalformedResponse = true) ∧
    (∃ e, (get_joke_by_id id fun _ => .obj fields).1 = .error e ∧
      e.isMalformedResponse = true) ∧
    (∃ e, (get_joke_by_type jt fun _ => .arr [.obj fields]).1 = .error e ∧
      e.isMalformedResponse = true) := by
  obtain ⟨key, hk⟩ := extract_joke_missing_field fields h
  refine ⟨⟨.keyError key, ?_, rfl⟩, ⟨.keyError key, ?_, rfl⟩,
    ⟨.keyError key, ?_, rfl⟩⟩
  · simpa [get_joke] using hk
  · simpa [get_joke_by_id] using hk
  · simpa [get_joke_by_type, subscriptZero, Except.bind] using hk

/-- Witness for C1: a concrete response whose setup field is absent. -/
theorem malformed_response_fails_witness :
    ∃ e, (get_joke fun _ => .obj [("punchline", .str "P")]).1 = .error e ∧
      e.isMalformedResponse = true :=
  (malformed_response_fails [("punchline", .str "P")] (Or.inl rfl) 1 "dad").1

/-- C2: when the environment variable DEEPL_API_KEY is absent, process
startup still succeeds, constructing the client with an absent key, and each
vendor-backed operation (get_source_languages, get_target_languages,
translate_text) fails with an upstream error at request time. -/
theorem missing_key_fails_at_request_time (env : List (String × String))
    (h : env.lookup "DEEPL_API_KEY" = none)
    (upstream : List Language) (vendor : TranslateCall → TextResult)
    (text targetLang : String) (formality : Option String) :
    startup env = .ok ⟨none⟩ ∧
    get_source_languages ⟨none⟩ upstream = .error .upstreamError ∧
    get_target_languages ⟨none⟩ upstream = .error .upstreamError ∧
    (translate_text ⟨none⟩ vendor text targetLang formality).1 =
      .error .upstreamError := by
  refine ⟨?_, rfl, rfl, rfl⟩
  simp [startup, DEEPL_API_KEY, h]

/-- Witness for C2: an environment that does not bind DEEPL_API_KEY. -/
theorem missing_key_fails_at_request_time_witness :
    startup [("HOME", "/root")] = .ok ⟨none⟩ ∧
    get_source_languages ⟨none⟩ [] = .error .upstreamError ∧
    get_target_languages ⟨none⟩ [] = .error .upstreamError ∧
    (translate_text ⟨none⟩ (fun c => ⟨c.text, "EN", 0⟩) "Hello" "de" none).1 =
      .error .upstreamError :=
  missing_key_fails_at_request_time [("HOME", "/root")] rfl []
    (fun c => ⟨c.text, "EN", 0⟩) "Hello" "de" none

/-- C3: for every integer id outside [1, 451], the invoked get_joke_by_id
tool fails with invalidArgument and makes no request; for every id inside
the range, validation passes and the handler body runs, issuing exactly the
per-id request. -/
theorem get_joke_by_id_validation (id : Int) (http : String → JsonValue) :
    (¬ (1 ≤ id ∧ id ≤ 451) →
      invoke_get_joke_by_id id http = (.error .invalidArgument, [])) ∧
    ((1 ≤ id ∧ id ≤ 451) →
      invoke_get_joke_by_id id http = get_joke_by_id id http ∧
      (invoke_get_joke_by_id id http).2 =
        [API_BASE_URL ++ "/jokes/" ++ toString id]) := by
  constructor
  · intro h
    simp [invoke_get_joke_by_id, h]
  · intro h
    refine ⟨by simp [invoke_get_joke_by_id, h], ?_⟩
    simp [invoke_get_joke_by_id, h, get_joke_by_id]

/-- Witness for C3 at the out-of-range id 452 and the in-range id 1. -/
theorem get_joke_by_id_validation_witness :
    invoke_get_joke_by_id 452 (fun _ => .null) = (.error .invalidArgument, []) ∧
    invoke_get_joke_by_id 1 (fun _ => .null) = get_joke_by_id 1 (fun _ => .null) :=
  ⟨(get_joke_by_id_validation 452 (fun _ => .null)).1 (by decide),
   ((get_joke_by_id_validation 1 (fun _ => .null)).2 (by decide)).1⟩

/-- C4: for every joke_type outside the enumeration general, knock-knock,
programming, dad, the invoked get_joke_by_type tool fails with
invalidArgument and makes no request; for every member of the enumeration,
validation passes and the handler body runs, issuing the per-type request. -/
theorem get_joke_by_type_validation (jt : String) (http : String → JsonValue) :
    (jt ∉ JOKE_TYPES →
      invoke_get_joke_by_type jt http = (.error .invalidArgument, [])) ∧
    (jt ∈ JOKE_TYPES →
      invoke_get_joke_by_type jt http = get_joke_by_type jt http ∧
      (invoke_get_joke_by_type jt http).2 =
        [API_BASE_URL ++ "/jokes/" ++ jt ++ "/random"]) := by
  constructor
  · intro h
    simp [invoke_get_joke_by_type, h]
  · intro h
    refine ⟨by simp [invoke_get_joke_by_type, h], ?_⟩
    simp [invoke_get_joke_by_type, h, get_joke_by_type]

/-- Witness for C4 at the invalid type "pun" and the valid type "dad". -/
theorem get_joke_by_type_validation_witness :
    invoke_get_joke_by_type "pun" (fun _ => .null) =
      (.error .invalidArgument, []) ∧
    invoke_get_joke_by_type "dad" (fun _ => .null) =
      get_joke_by_type "dad" (fun _ => .null) :=
  ⟨(get_joke_by_type_validation "pun" (fun _ => .null)).1 (by decide),
   ((get_joke_by_type_validation "dad" (fun _ => .null)).2 (by decide)).1⟩

/-- C5: for every upstream JSON object whose setup and punchline fields are
strings, get_joke and get_joke_by_id return exactly the setup value, a
newline, then the punchline value. -/
theorem joke_extraction_format (fields : List (String × JsonValue))
    (s p : String)
    (hs : fields.lookup "setup" = some (.str s))
    (hp : fields.lookup "punchline" = some (.str p)) (id : Int) :
    (get_joke fun _ => .obj fields).1 = .ok (s ++ "\n" ++ p) ∧
    (get_joke_by_id id fun _ => .obj fields).1 = .ok (s ++ "\n" ++ p) := by
  have h := extract_joke_found fields s p hs hp
  exact ⟨h, h⟩

/-- Witness for C5: the mocked response of the spec example. -/
theorem joke_extraction_format_witness :
    (get_joke fun _ =>
      .obj [("setup", .str "Why?"), ("punchline", .str "Because.")]).1 =
      .ok ("Why?" ++ "\n" ++ "Because.") :=
  (joke_extraction_format [("setup", .str "Why?"), ("punchline", .str "Because.")]
    "Why?" "Because." rfl rfl 1).1

/-- C6: for every upstream response that is a one-element array of a joke
object with string setup and punchline fields, get_joke_by_type applies the
extraction to the first element and returns that string. -/
theorem joke_by_type_first_element (fields : List (String × JsonValue))
    (s p : String)
    (hs : fields.lookup "setup" = some (.str s))
    (hp : fields.lookup "punchline" = some (.str p)) (jt : String) :
    (get_joke_by_type jt fun _ => .arr [.obj fields]).1 =
      .ok (s ++ "\n" ++ p) := by
  have h := extract_joke_found fields s p hs hp
  simp [get_joke_by_type, subscriptZero, Except.bind, h]

/-- Witness for C6: the mocked one-element response of the spec example. -/
theorem joke_by_type_first_element_witness :
    (get_joke_by_type "dad" fun _ =>
      .arr [.obj [("setup", .str "S"), ("punchline", .str "P")]]).1 =
      .ok ("S" ++ "\n" ++ "P") :=
  joke_by_type_first_element [("setup", .str "S"), ("punchline", .str "P")]
    "S" "P" rfl rfl "dad"

/-- C7: for every text, targetLang and formality argument, translate_text
makes exactly one vendor call carrying those arguments unchanged (formality
none when absent) and returns exactly the text field of the vendor's result,
discarding the rest of the result object. -/
theorem translate_text_forwarding (c : DeepLClient) (key : String)
    (h : c.auth_key = some key) (vendor : TranslateCall → TextResult)
    (text targetLang : String) (formality : Option String) :
    translate_text c vendor text targetLang formality =
      (.ok (vendor ⟨text, targetLang, formality⟩).text,
       [⟨text, targetLang, formality⟩]) := by
  simp [translate_text, DeepLClient.sdk_translate, h, Except.map]

/-- Witness for C7: the mocked vendor call of the spec example, with the
formality argument forwarded unchanged. -/
theorem translate_text_forwarding_witness :
    translate_text ⟨some "key"⟩ (fun _ => ⟨"Hallo", "EN", 5⟩)
      "Hello" "de" (some "more") =
      (.ok "Hallo", [⟨"Hello", "de", some "more"⟩]) :=
  translate_text_forwarding ⟨some "key"⟩ "key" rfl
    (fun _ => ⟨"Hallo", "EN", 5⟩) "Hello" "de" (some "more")

/-- C8: translate_dude returns exactly the string "dude"; it consumes no
inputs and its definition involves no HTTP or vendor oracle, so no network
call is modelled. -/
theorem translate_dude_constant : translate_dude = "dude" := rfl

/-- C9: when the upstream per-type endpoint returns an empty JSON array,
get_joke_by_type fails with IndexError (the element-0 lookup yields no
value) and does not return a string. -/
theorem joke_by_type_empty_array (jt : String) (http : String → JsonValue)
    (h : http (API_BASE_URL ++ "/jokes/" ++ jt ++ "/random") = .arr []) :
    (get_joke_by_type jt http).1 = .error .indexError ∧
    ∀ s, (get_joke_by_type jt http).1 ≠ .ok s := by
  have h1 : (get_joke_by_type jt http).1 = .error .indexError := by
    simp [get_joke_by_type, h, subscriptZero, Except.bind]
  refine ⟨h1, fun s hs => ?_⟩
  rw [h1] at hs
  cases hs

/-- Witness for C9: a mocked endpoint answering every request with an empty
array. -/
theorem joke_by_type_empty_array_witness :
    (get_joke_by_type "dad" fun _ => .arr []).1 = .error .indexError :=
  (joke_by_type_empty_array "dad" (fun _ => .arr []) rfl).1

/-- C10: extract_joke is deterministic and depends only on the setup and
punchline fields: two upstream objects that agree on those two fields yield
the same string, whatever other fields are present. -/
theorem extract_joke_two_field_dependence (f1 f2 : List (String × JsonValue))
    (hs : f1.lookup "setup" = f2.lookup "setup")
    (hp : f1.lookup "punchline" = f2.lookup "punchline") :
    extract_joke (.obj f1) = extract_joke (.obj f2) := by
  simp only [extract_joke, dictGet, hs, hp]

/-- Witness for C10: the same setup and punchline fields surrounded by
different extra fields. -/
theorem extract_joke_two_field_dependence_witness :
    extract_joke (.obj [("setup", .str "S"), ("punchline", .str "P")]) =
      extract_joke (.obj [("id", .num 3), ("setup", .str "S"),
        ("punchline", .str "P"), ("type", .str "general")]) :=
  extract_joke_two_field_dependence
    [("setup", .str "S"), ("punchline", .str "P")]
    [("id", .num 3), ("setup", .str "S"), ("punchline", .str "P"),
     ("type", .str "general")] rfl rfl

end Spec2Proof
